import Mathlib

/-!
Shallow embedding of the ha-mopeka decode pipeline
(src/custom_components/mopeka/parser.py, src/custom_components/mopeka/model.py,
src/custom_components/ha_mopeka/const.py).

Numeric conventions of the embedding:
- Python integers are `ℤ`/`ℕ`; payload bytes are `ℕ` values (Python `bytes`
  guarantees 0..255, which the bit-level claims do not even need).
- IEEE doubles are embedded as exact rationals (`ℚ`) in the decoder and as
  exact reals (`ℝ`) in the tank-geometry stage, which uses `π`, `arccos`
  and `sqrt`.  All decimal literals of the source are exact in `ℚ`/`ℝ`.
- Python `round` is round-half-to-even on the exact value (`pythonRound`);
  Python `int(x)` truncates toward zero (`pyInt`).
- `MopekaSensorData.timestamp` (wall-clock time set in `__post_init__`) is
  outside the embedding; every claim about readings is stated up to it.
-/

namespace Mopeka

/-- MediumType enumeration from const.py. -/
inductive MediumType where
  | propane
  | air
  | fresh_water
  | waste_water
  | black_water
  | live_well
  | gasoline
  | diesel
  | lng
  | oil
  | hydraulic_oil
  | custom
deriving DecidableEq, Repr

/-- TankOrientation enumeration from const.py. -/
inductive TankOrientation where
  | vertical
  | horizontal
deriving DecidableEq, Repr

/-- SYNC_BYTE_TO_MODEL dictionary from const.py: sync byte to model name. -/
def SYNC_BYTE_TO_MODEL (b : ℕ) : Option String :=
  if b = 0x03 then some "Pro Plus (M1015)"
  else if b = 0x04 then some "Pro Check (M1017)"
  else if b = 0x05 then some "Pro 200"
  else if b = 0x08 then some "Pro H2O"
  else if b = 0x09 then some "Pro H2O Plus"
  else if b = 0x0A then some "Lippert BottleCheck"
  else if b = 0x0B then some "TD40"
  else if b = 0x0C then some "TD200"
  else none

/-- COMPENSATION_COEFFICIENTS dictionary from const.py, decimal literals as
exact rationals. -/
def COMPENSATION_COEFFICIENTS : MediumType → ℚ × ℚ × ℚ
  | .propane => (0.573045, -0.002822, -0.00000535)
  | .air => (0.153096, 0.000327, -0.000000294)
  | .fresh_water => (0.600592, 0.003124, -0.00001368)
  | .waste_water => (0.600592, 0.003124, -0.00001368)
  | .live_well => (0.600592, 0.003124, -0.00001368)
  | .black_water => (0.600592, 0.003124, -0.00001368)
  | .gasoline => (0.7373417462, -0.001978229885, 0.00000202162)
  | .diesel => (0.7373417462, -0.001978229885, 0.00000202162)
  | .lng => (0.7373417462, -0.001978229885, 0.00000202162)
  | .oil => (0.7373417462, -0.001978229885, 0.00000202162)
  | .hydraulic_oil => (0.7373417462, -0.001978229885, 0.00000202162)
  | .custom => (0.573045, -0.002822, -0.00000535)

/-- Python round() on an exact rational value: nearest integer, ties to even. -/
def pythonRound (q : ℚ) : ℤ :=
  let f := ⌊q⌋
  let r := q - (f : ℚ)
  if r < 1 / 2 then f
  else if 1 / 2 < r then f + 1
  else if f % 2 = 0 then f else f + 1

/-- Python int() on an exact rational value: truncation toward zero, embedded
via truncating integer division of numerator by denominator. -/
def pyInt (q : ℚ) : ℤ :=
  Int.tdiv q.num (q.den : ℤ)

/-- apply_temperature_compensation from const.py: quadratic per-medium factor
applied to the raw distance, result truncated toward zero by Python int(). -/
def apply_temperature_compensation (distance_raw_mm : ℤ) (temp_raw : ℤ)
    (medium_type : MediumType) : ℤ :=
  let c := COMPENSATION_COEFFICIENTS medium_type
  let factor : ℚ := c.1 + c.2.1 * (temp_raw : ℚ) + c.2.2 * (temp_raw : ℚ) * (temp_raw : ℚ)
  pyInt ((distance_raw_mm : ℚ) * factor)

/-- The compensation factor alone, for stating claims about its sign. -/
def compensation_factor (medium_type : MediumType) (temp_raw : ℤ) : ℚ :=
  let c := COMPENSATION_COEFFICIENTS medium_type
  c.1 + c.2.1 * (temp_raw : ℚ) + c.2.2 * (temp_raw : ℚ) * (temp_raw : ℚ)

/-- Truncation toward zero as the spec words it: floor for nonnegative values,
ceiling for negative ones.  Stated separately from `pyInt` so the two can be
proved to agree. -/
def truncate_toward_zero (q : ℚ) : ℤ :=
  if 0 ≤ q then ⌊q⌋ else ⌈q⌉

/-- TankSpec dataclass from const.py.  Dimensions are decimal literals in the
source; they are kept as exact rationals and cast to `ℝ` where the geometry
computes. -/
structure TankSpec where
  id : String
  name : String
  orientation : TankOrientation
  overall_length_mm : ℚ
  overall_diameter_mm : ℚ
  wall_thickness_mm : ℚ := 3.175
deriving DecidableEq, Repr

/-- Derived property internal_diameter_mm of TankSpec. -/
def TankSpec.internal_diameter_mm (s : TankSpec) : ℚ :=
  s.overall_diameter_mm - 2 * s.wall_thickness_mm

/-- Derived property radius_mm of TankSpec. -/
def TankSpec.radius_mm (s : TankSpec) : ℚ :=
  s.internal_diameter_mm / 2

/-- Derived property side_length_mm of TankSpec. -/
def TankSpec.side_length_mm (s : TankSpec) : ℚ :=
  match s.orientation with
  | .vertical => s.overall_length_mm - s.internal_diameter_mm / 2
  | .horizontal => s.overall_length_mm - s.overall_diameter_mm

/-- TANK_SPECS dictionary from const.py. -/
def TANK_SPECS (id : String) : Option TankSpec :=
  if id = "20lb_v" then some ⟨"20lb_v", "20lb Vertical", .vertical, 316.0, 304.8, 3.175⟩
  else if id = "30lb_v" then some ⟨"30lb_v", "30lb Vertical", .vertical, 422.0, 304.8, 3.175⟩
  else if id = "40lb_v" then some ⟨"40lb_v", "40lb Vertical", .vertical, 457.0, 304.8, 3.175⟩
  else if id = "250gal_h" then
    some ⟨"250gal_h", "250 Gallon Horizontal", .horizontal, 2387.6, 762.0, 3.175⟩
  else if id = "500gal_h" then
    some ⟨"500gal_h", "500 Gallon Horizontal", .horizontal, 3022.6, 952.5, 3.175⟩
  else if id = "1000gal_h" then
    some ⟨"1000gal_h", "1000 Gallon Horizontal", .horizontal, 4877.5, 1041.4, 3.175⟩
  else if id = "europe_6kg" then
    some ⟨"europe_6kg", "6kg European Vertical", .vertical, 340, 240, 3.175⟩
  else if id = "europe_11kg" then
    some ⟨"europe_11kg", "11kg European Vertical", .vertical, 390, 290, 3.175⟩
  else if id = "europe_14kg" then
    some ⟨"europe_14kg", "14kg European Vertical", .vertical, 430, 290, 3.175⟩
  else if id = "custom" then some ⟨"custom", "Custom Tank", .vertical, 300, 300, 3.175⟩
  else none

/-- The spec actually used by calculate_tank_percentage: dictionary get with
the "20lb_v" entry as default. -/
def specOf (tank_type : String) : TankSpec :=
  (TANK_SPECS tank_type).getD ⟨"20lb_v", "20lb Vertical", .vertical, 316.0, 304.8, 3.175⟩

/-- The helper _calculate_vertical from const.py, over exact reals.  The final
clamp `max(0, min(100, 100 * fill_volume / max_volume))` and the
`fill_volume < 0` early return are gathered in a local closure applied in each
branch that falls through to them in the source. -/
noncomputable def _calculate_vertical (fill_depth radius side_length : ℝ) : ℝ :=
  let pi := Real.pi
  let ellipsoid_a := radius
  let ellipsoid_b := radius
  let ellipsoid_c := radius / 2
  let tank_height := side_length + ellipsoid_c
  if fill_depth > tank_height then 100
  else
    let hemi_ellipsoid_volume := (2 / 3) * pi * ellipsoid_a * ellipsoid_b * ellipsoid_c
    let cylinder_volume := side_length * pi * radius * radius
    let max_volume := 2 * hemi_ellipsoid_volume + cylinder_volume
    let finish := fun (fill_volume : ℝ) =>
      if fill_volume < 0 then 0
      else max 0 (min 100 (100 * fill_volume / max_volume))
    if 0 ≤ fill_depth ∧ fill_depth ≤ ellipsoid_c then
      finish (pi * ellipsoid_a * ellipsoid_b *
        ((2 / 3 * ellipsoid_c) - ellipsoid_c + fill_depth +
          (ellipsoid_c - fill_depth) ^ 3 / (3 * ellipsoid_c * ellipsoid_c)))
    else if ellipsoid_c ≤ fill_depth ∧ fill_depth ≤ ellipsoid_c + side_length then
      finish (hemi_ellipsoid_volume + (fill_depth - ellipsoid_c) * pi * radius * radius)
    else if ellipsoid_c + side_length ≤ fill_depth ∧ fill_depth ≤ tank_height then
      let top_depth := tank_height - fill_depth
      finish (max_volume - pi * ellipsoid_a * ellipsoid_b *
        ((2 / 3 * ellipsoid_c) - ellipsoid_c + top_depth +
          (ellipsoid_c - top_depth) ^ 3 / (3 * ellipsoid_c * ellipsoid_c)))
    else 0

/-- The helper _calculate_horizontal from const.py, over exact reals. -/
noncomputable def _calculate_horizontal (fill_depth radius side_length : ℝ) : ℝ :=
  let pi := Real.pi
  if fill_depth > 2 * radius then 100
  else if fill_depth < 0 then 0
  else
    let spherical_volume := (4 / 3) * pi * radius * radius * radius
    let cylinder_volume := side_length * pi * radius * radius
    let max_volume := spherical_volume + cylinder_volume
    let fill_spherical := (pi / 3) * fill_depth * fill_depth * (3 * radius - fill_depth)
    let fill_cylinder := side_length *
      (radius * radius * Real.arccos ((radius - fill_depth) / radius)
        - (radius - fill_depth) *
          Real.sqrt (max 0 (2 * radius * fill_depth - fill_depth * fill_depth)))
    let fill_volume := fill_spherical + fill_cylinder
    max 0 (min 100 (100 * fill_volume / max_volume))

/-- calculate_tank_percentage from const.py. -/
noncomputable def calculate_tank_percentage (tank_type : String)
    (measured_depth_mm : ℝ) : ℝ :=
  let spec := specOf tank_type
  let fill_depth := measured_depth_mm - (spec.wall_thickness_mm : ℝ)
  if fill_depth < 0 then 0
  else
    let radius : ℝ := (spec.radius_mm : ℝ)
    let side_length : ℝ := (spec.side_length_mm : ℝ)
    match spec.orientation with
    | .vertical => _calculate_vertical fill_depth radius side_length
    | .horizontal => _calculate_horizontal fill_depth radius side_length

/-- MopekaSensorData dataclass from model.py, without the timestamp field
(wall-clock time assigned in __post_init__, outside the embedding). -/
structure MopekaSensorData where
  mac_address : String
  model_id : ℕ
  model_name : String
  battery_percent : ℤ
  distance_raw_mm : ℕ
  compensated_distance_mm : ℤ
  temperature_c : ℤ
  quality_percent : ℤ
  quality_raw : ℕ
  accelerometer_x : ℕ
  accelerometer_y : ℕ
  tank_level_percent : ℝ
  medium_type : MediumType
  tank_type : String

/-- MIN_MANUFACTURER_PAYLOAD from parser.py. -/
def MIN_MANUFACTURER_PAYLOAD : ℕ := 10

/-- parse_mopeka_data from parser.py.  Byte indexing uses `List.getD`; every
index the source reads (0..4, 8, 9) is below the guarded minimum length 10,
so the default value is never produced. -/
noncomputable def parse_mopeka_data (address : String) (manufacturer_data : List ℕ)
    (medium_type : MediumType) (tank_type : String) : Option MopekaSensorData :=
  if manufacturer_data.length < MIN_MANUFACTURER_PAYLOAD then none
  else
    let sync_byte := manufacturer_data.getD 0 0
    match SYNC_BYTE_TO_MODEL sync_byte with
    | none => none
    | some model_name =>
      let battery_raw := manufacturer_data.getD 1 0
      let temp_raw := manufacturer_data.getD 2 0 &&& 0x7F
      let temp_c : ℤ := (temp_raw : ℤ) - 40
      let low := manufacturer_data.getD 3 0
      let high := manufacturer_data.getD 4 0
      let distance_raw_mm := ((high <<< 8) ||| low) &&& 0x3FFF
      let quality_raw := (high >>> 6) &&& 0x03
      let quality_percent := pythonRound ((quality_raw : ℚ) / 3 * 100)
      let accel_x := manufacturer_data.getD 8 0
      let accel_y := manufacturer_data.getD 9 0
      let battery_voltage : ℚ := (battery_raw : ℚ) / 32
      let battery_percent := pythonRound ((battery_voltage - 2.2) / 0.65 * 100)
      let battery_percent := max 0 (min 100 battery_percent)
      let compensated_mm :=
        apply_temperature_compensation (distance_raw_mm : ℤ) (temp_raw : ℤ) medium_type
      let tank_percent := calculate_tank_percentage tank_type (compensated_mm : ℝ)
      some
        { mac_address := address
          model_id := sync_byte
          model_name := model_name
          battery_percent := battery_percent
          distance_raw_mm := distance_raw_mm
          compensated_distance_mm := compensated_mm
          temperature_c := temp_c
          quality_percent := quality_percent
          quality_raw := quality_raw
          accelerometer_x := accel_x
          accelerometer_y := accel_y
          tank_level_percent := tank_percent
          medium_type := medium_type
          tank_type := tank_type }

/-- _calculate_vertical with Python arithmetic-exception semantics made
explicit: `none` marks an uncaught ZeroDivisionError.  In the source the
region-1 and region-3 formulas divide by `3.0 * ellipsoid_c * ellipsoid_c`
before anything else can return, and the final percentage divides by
`max_volume`; over exact reals those divisions raise exactly when the
divisor is zero. -/
noncomputable def _calculate_vertical_checked (fill_depth radius side_length : ℝ) :
    Option ℝ :=
  let pi := Real.pi
  let ellipsoid_a := radius
  let ellipsoid_b := radius
  let ellipsoid_c := radius / 2
  let tank_height := side_length + ellipsoid_c
  if fill_depth > tank_height then some 100
  else
    let hemi_ellipsoid_volume := (2 / 3) * pi * ellipsoid_a * ellipsoid_b * ellipsoid_c
    let cylinder_volume := side_length * pi * radius * radius
    let max_volume := 2 * hemi_ellipsoid_volume + cylinder_volume
    let finish := fun (fill_volume : ℝ) =>
      if fill_volume < 0 then some 0
      else if max_volume = 0 then none
      else some (max 0 (min 100 (100 * fill_volume / max_volume)))
    if 0 ≤ fill_depth ∧ fill_depth ≤ ellipsoid_c then
      if 3 * ellipsoid_c * ellipsoid_c = 0 then none
      else finish (pi * ellipsoid_a * ellipsoid_b *
        ((2 / 3 * ellipsoid_c) - ellipsoid_c + fill_depth +
          (ellipsoid_c - fill_depth) ^ 3 / (3 * ellipsoid_c * ellipsoid_c)))
    else if ellipsoid_c ≤ fill_depth ∧ fill_depth ≤ ellipsoid_c + side_length then
      finish (hemi_ellipsoid_volume + (fill_depth - ellipsoid_c) * pi * radius * radius)
    else if ellipsoid_c + side_length ≤ fill_depth ∧ fill_depth ≤ tank_height then
      if 3 * ellipsoid_c * ellipsoid_c = 0 then none
      else
        let top_depth := tank_height - fill_depth
        finish (max_volume - pi * ellipsoid_a * ellipsoid_b *
          ((2 / 3 * ellipsoid_c) - ellipsoid_c + top_depth +
            (ellipsoid_c - top_depth) ^ 3 / (3 * ellipsoid_c * ellipsoid_c)))
    else some 0

/-- _calculate_horizontal with Python arithmetic-exception semantics made
explicit: `none` marks an uncaught ZeroDivisionError from
`(radius - fill_depth) / radius` or from the final `/ max_volume`, or an
uncaught ValueError from math.acos outside [-1, 1].  The sqrt argument is
guarded by max in the source and can never raise. -/
noncomputable def _calculate_horizontal_checked (fill_depth radius side_length : ℝ) :
    Option ℝ :=
  let pi := Real.pi
  if fill_depth > 2 * radius then some 100
  else if fill_depth < 0 then some 0
  else if radius = 0 then none
  else if (radius - fill_depth) / radius < -1 ∨ 1 < (radius - fill_depth) / radius then none
  else
    let spherical_volume := (4 / 3) * pi * radius * radius * radius
    let cylinder_volume := side_length * pi * radius * radius
    let max_volume := spherical_volume + cylinder_volume
    let fill_spherical := (pi / 3) * fill_depth * fill_depth * (3 * radius - fill_depth)
    let fill_cylinder := side_length *
      (radius * radius * Real.arccos ((radius - fill_depth) / radius)
        - (radius - fill_depth) *
          Real.sqrt (max 0 (2 * radius * fill_depth - fill_depth * fill_depth)))
    let fill_volume := fill_spherical + fill_cylinder
    if max_volume = 0 then none
    else some (max 0 (min 100 (100 * fill_volume / max_volume)))

/-- calculate_tank_percentage with the exception semantics of its helpers. -/
noncomputable def calculate_tank_percentage_checked (tank_type : String)
    (measured_depth_mm : ℝ) : Option ℝ :=
  let spec := specOf tank_type
  let fill_depth := measured_depth_mm - (spec.wall_thickness_mm : ℝ)
  if fill_depth < 0 then some 0
  else
    let radius : ℝ := (spec.radius_mm : ℝ)
    let side_length : ℝ := (spec.side_length_mm : ℝ)
    match spec.orientation with
    | .vertical => _calculate_vertical_checked fill_depth radius side_length
    | .horizontal => _calculate_horizontal_checked fill_depth radius side_length

/-- Piecewise fill volume of the vertical geometry on the non-clamped range,
used to restate _calculate_vertical for the monotonicity and boundary
claims. -/
noncomputable def vertFillVolume (r d : ℝ) : ℝ :=
  if d ≤ r / 2 then
    Real.pi * r * r * ((2 / 3 * (r / 2)) - r / 2 + d + (r / 2 - d) ^ 3 / (3 * (r / 2) * (r / 2)))
  else (2 / 3) * Real.pi * r * r * (r / 2) + (d - r / 2) * Real.pi * r * r

/-- Total volume of the vertical geometry. -/
noncomputable def vertMaxVolume (r L : ℝ) : ℝ :=
  2 * ((2 / 3) * Real.pi * r * r * (r / 2)) + L * Real.pi * r * r

/-- Fill volume of the horizontal geometry. -/
noncomputable def horizFillVolume (r L d : ℝ) : ℝ :=
  (Real.pi / 3) * d * d * (3 * r - d) +
    L * (r * r * Real.arccos ((r - d) / r) -
      (r - d) * Real.sqrt (max 0 (2 * r * d - d * d)))

/-- Total volume of the horizontal geometry. -/
noncomputable def horizMaxVolume (r L : ℝ) : ℝ :=
  (4 / 3) * Real.pi * r * r * r + L * Real.pi * r * r

/-- Normalized circular-segment function behind the horizontal fill volume. -/
noncomputable def segFun (s : ℝ) : ℝ :=
  Real.arccos s - s * Real.sqrt (1 - s ^ 2)

/-- The reading produced on the successful path, written out explicitly so
field projections compute. -/
noncomputable def decodedReading (a : String) (d : List ℕ) (m : MediumType)
    (t : String) (name : String) : MopekaSensorData :=
  { mac_address := a
    model_id := d.getD 0 0
    model_name := name
    battery_percent :=
      max 0 (min 100 (pythonRound (((d.getD 1 0 : ℚ) / 32 - 2.2) / 0.65 * 100)))
    distance_raw_mm := ((d.getD 4 0 <<< 8) ||| d.getD 3 0) &&& 0x3FFF
    compensated_distance_mm :=
      apply_temperature_compensation
        (((((d.getD 4 0) <<< 8) ||| d.getD 3 0) &&& 0x3FFF : ℕ) : ℤ)
        ((d.getD 2 0 &&& 0x7F : ℕ) : ℤ) m
    temperature_c := ((d.getD 2 0 &&& 0x7F : ℕ) : ℤ) - 40
    quality_percent := pythonRound ((((d.getD 4 0 >>> 6) &&& 0x03 : ℕ) : ℚ) / 3 * 100)
    quality_raw := (d.getD 4 0 >>> 6) &&& 0x03
    accelerometer_x := d.getD 8 0
    accelerometer_y := d.getD 9 0
    tank_level_percent := calculate_tank_percentage t
      ((apply_temperature_compensation
        (((((d.getD 4 0) <<< 8) ||| d.getD 3 0) &&& 0x3FFF : ℕ) : ℤ)
        ((d.getD 2 0 &&& 0x7F : ℕ) : ℤ) m : ℤ) : ℝ)
    medium_type := m
    tank_type := t }

lemma parse_eq_some_of (a : String) (d : List ℕ) (m : MediumType) (t : String)
    (name : String) (h10 : MIN_MANUFACTURER_PAYLOAD ≤ d.length)
    (hs : SYNC_BYTE_TO_MODEL (d.getD 0 0) = some name) :
    parse_mopeka_data a d m t = some (decodedReading a d m t name) := by
  simp only [parse_mopeka_data]
  rw [if_neg (by omega), hs]
  rfl

lemma parse_some_cases (a : String) (d : List ℕ) (m : MediumType) (t : String)
    (r : MopekaSensorData) (h : parse_mopeka_data a d m t = some r) :
    MIN_MANUFACTURER_PAYLOAD ≤ d.length ∧
      ∃ name, SYNC_BYTE_TO_MODEL (d.getD 0 0) = some name ∧
        r = decodedReading a d m t name := by
  by_cases h10 : d.length < MIN_MANUFACTURER_PAYLOAD
  · simp only [parse_mopeka_data] at h
    rw [if_pos h10] at h
    exact Option.noConfusion h
  · refine ⟨Nat.not_lt.mp h10, ?_⟩
    cases hs : SYNC_BYTE_TO_MODEL (d.getD 0 0) with
    | none =>
      simp only [parse_mopeka_data] at h
      rw [if_neg h10, hs] at h
      exact Option.noConfusion h
    | some name =>
      have h2 := (parse_eq_some_of a d m t name (Nat.not_lt.mp h10) hs).symm.trans h
      exact ⟨name, rfl, (Option.some.inj h2).symm⟩

lemma parse_none_iff (a : String) (d : List ℕ) (m : MediumType) (t : String) :
    parse_mopeka_data a d m t = none ↔
      d.length < 10 ∨ SYNC_BYTE_TO_MODEL (d.getD 0 0) = none := by
  constructor
  · intro h
    by_cases h10 : d.length < 10
    · exact Or.inl h10
    · right
      cases hs : SYNC_BYTE_TO_MODEL (d.getD 0 0) with
      | none => rfl
      | some name =>
        rw [parse_eq_some_of a d m t name (Nat.not_lt.mp h10) hs] at h
        exact Option.noConfusion h
  · intro h
    rcases h with h10 | hs
    · simp only [parse_mopeka_data, MIN_MANUFACTURER_PAYLOAD]
      rw [if_pos h10]
    · by_cases h10 : d.length < 10
      · simp only [parse_mopeka_data, MIN_MANUFACTURER_PAYLOAD]
        rw [if_pos h10]
      · simp only [parse_mopeka_data, MIN_MANUFACTURER_PAYLOAD]
        rw [if_neg h10, hs]

lemma sync_none_iff (b : ℕ) :
    SYNC_BYTE_TO_MODEL b = none ↔
      b ∉ ([0x03, 0x04, 0x05, 0x08, 0x09, 0x0A, 0x0B, 0x0C] : List ℕ) := by
  unfold SYNC_BYTE_TO_MODEL
  split_ifs with h1 h2 h3 h4 h5 h6 h7 h8 <;> simp_all

lemma pyInt_eq_truncate (q : ℚ) : pyInt q = truncate_toward_zero q := by
  unfold pyInt truncate_toward_zero
  split_ifs with h
  · rw [Int.tdiv_eq_ediv (Rat.num_nonneg.mpr h) (Int.natCast_nonneg q.den), Rat.floor_def]
  · push_neg at h
    have hq : 0 ≤ -q := by linarith
    have hnum : 0 ≤ (-q).num := Rat.num_nonneg.mpr hq
    have h1 : ⌈q⌉ = -⌊-q⌋ := by rw [← Int.ceil_neg, neg_neg]
    have h2 : q.num = -((-q).num) := by rw [Rat.neg_num, neg_neg]
    rw [h1, Rat.floor_def, h2, Int.neg_tdiv, Rat.neg_den,
      Int.tdiv_eq_ediv hnum (Int.natCast_nonneg q.den)]

lemma pyInt_nonneg (q : ℚ) (h : 0 ≤ q) : 0 ≤ pyInt q := by
  rw [pyInt_eq_truncate]
  unfold truncate_toward_zero
  rw [if_pos h]
  exact Int.floor_nonneg.mpr h

/-- C1: every payload of length at least 10 whose first byte is a recognized
sync byte is decoded bit-exactly per the fixed layout: temp_raw is byte 2
masked to 7 bits (surfaced as temperature_c = temp_raw - 40), distance_raw_mm
is the little-endian pair of bytes 3 and 4 masked to 14 bits, quality_raw is
the top two bits of byte 4, and quality_percent = round(quality_raw/3*100);
hence distance_raw_mm is at most 16383 and quality_raw at most 3, and for
byte 3 = 0x10, byte 4 = 0x40 the reading has distance_raw_mm = 16,
quality_raw = 1, quality_percent = 33. -/
theorem parse_layout_bitexact (a : String) (d : List ℕ) (m : MediumType) (t : String)
    (h10 : 10 ≤ d.length) (hs : (SYNC_BYTE_TO_MODEL (d.getD 0 0)).isSome = true) :
    ∃ r, parse_mopeka_data a d m t = some r ∧
      r.temperature_c = ((d.getD 2 0 &&& 0x7F : ℕ) : ℤ) - 40 ∧
      r.distance_raw_mm = ((d.getD 4 0 <<< 8) ||| d.getD 3 0) &&& 0x3FFF ∧
      r.quality_raw = (d.getD 4 0 >>> 6) &&& 0x03 ∧
      r.quality_percent = pythonRound ((((d.getD 4 0 >>> 6) &&& 0x03 : ℕ) : ℚ) / 3 * 100) ∧
      r.distance_raw_mm ≤ 16383 ∧ r.quality_raw ≤ 3 ∧
      (d.getD 3 0 = 0x10 → d.getD 4 0 = 0x40 →
        r.distance_raw_mm = 16 ∧ r.quality_raw = 1 ∧ r.quality_percent = 33) := by
  obtain ⟨name, hname⟩ := Option.isSome_iff_exists.mp hs
  refine ⟨decodedReading a d m t name, parse_eq_some_of a d m t name h10 hname,
    rfl, rfl, rfl, rfl, Nat.and_le_right, Nat.and_le_right, ?_⟩
  intro h3 h4
  refine ⟨?_, ?_, ?_⟩
  · show ((d.getD 4 0 <<< 8) ||| d.getD 3 0) &&& 0x3FFF = 16
    rw [h3, h4]
    decide
  · show (d.getD 4 0 >>> 6) &&& 0x03 = 1
    rw [h4]
    decide
  · show pythonRound ((((d.getD 4 0 >>> 6) &&& 0x03 : ℕ) : ℚ) / 3 * 100) = 33
    rw [h4]
    have hq : ((64 : ℕ) >>> 6) &&& 0x03 = 1 := by decide
    rw [hq]
    norm_num [pythonRound]

/-- Witness for C1 at a concrete 10-byte payload with sync byte 0x03,
byte 3 = 0x10 and byte 4 = 0x40. -/
theorem parse_layout_bitexact_witness :
    ∃ r, parse_mopeka_data "aa:bb" [3, 100, 66, 16, 64, 0, 0, 0, 5, 6]
        MediumType.propane "20lb_v" = some r ∧
      r.temperature_c =
        (([3, 100, 66, 16, 64, 0, 0, 0, 5, 6].getD 2 0 &&& 0x7F : ℕ) : ℤ) - 40 ∧
      r.distance_raw_mm = (([3, 100, 66, 16, 64, 0, 0, 0, 5, 6].getD 4 0 <<< 8) |||
        [3, 100, 66, 16, 64, 0, 0, 0, 5, 6].getD 3 0) &&& 0x3FFF ∧
      r.quality_raw = ([3, 100, 66, 16, 64, 0, 0, 0, 5, 6].getD 4 0 >>> 6) &&& 0x03 ∧
      r.quality_percent = pythonRound (((([3, 100, 66, 16, 64, 0, 0, 0, 5, 6].getD 4 0 >>> 6)
        &&& 0x03 : ℕ) : ℚ) / 3 * 100) ∧
      r.distance_raw_mm ≤ 16383 ∧ r.quality_raw ≤ 3 ∧
      ([3, 100, 66, 16, 64, 0, 0, 0, 5, 6].getD 3 0 = 0x10 →
        [3, 100, 66, 16, 64, 0, 0, 0, 5, 6].getD 4 0 = 0x40 →
        r.distance_raw_mm = 16 ∧ r.quality_raw = 1 ∧ r.quality_percent = 33) :=
  parse_layout_bitexact "aa:bb" [3, 100, 66, 16, 64, 0, 0, 0, 5, 6]
    MediumType.propane "20lb_v" (by decide) (by decide)

/-- C4: apply_temperature_compensation on in-range inputs is exactly the
truncation toward zero of distance_raw_mm times the quadratic medium factor;
it is a total function given by this formula, with no failure mode. -/
theorem compensation_is_truncation (dist temp : ℤ) (m : MediumType)
    (_hd0 : 0 ≤ dist) (_hd : dist ≤ 16383) (_ht0 : 0 ≤ temp) (_ht : temp ≤ 127) :
    apply_temperature_compensation dist temp m =
      truncate_toward_zero ((dist : ℚ) * compensation_factor m temp) := by
  unfold apply_temperature_compensation compensation_factor
  exact pyInt_eq_truncate _

/-- Witness for C4 at distance 1000 mm, temp_raw 40, medium propane. -/
theorem compensation_is_truncation_witness :
    apply_temperature_compensation 1000 40 MediumType.propane =
      truncate_toward_zero ((1000 : ℚ) * compensation_factor MediumType.propane 40) :=
  compensation_is_truncation 1000 40 MediumType.propane (by norm_num) (by norm_num)
    (by norm_num) (by norm_num)

/-- C5: the battery percentage of every produced reading is
round((battery_raw/32 - 2.2)/0.65*100) clamped to [0, 100], and lies in that
interval; in the scenario battery_raw = 100 the voltage is 3.125, the raw
rounded percent is 142, and the clamped result is 100. -/
theorem battery_percent_formula :
    (∀ (a : String) (d : List ℕ) (m : MediumType) (t : String) (r : MopekaSensorData),
      parse_mopeka_data a d m t = some r →
        r.battery_percent =
          max 0 (min 100 (pythonRound (((d.getD 1 0 : ℚ) / 32 - 2.2) / 0.65 * 100))) ∧
        0 ≤ r.battery_percent ∧ r.battery_percent ≤ 100) ∧
    (100 : ℚ) / 32 = 3.125 ∧
    pythonRound (((100 : ℚ) / 32 - 2.2) / 0.65 * 100) = 142 ∧
    (max 0 (min 100 (pythonRound (((100 : ℚ) / 32 - 2.2) / 0.65 * 100))) : ℤ) = 100 := by
  refine ⟨?_, by norm_num, by norm_num [pythonRound], by norm_num [pythonRound]⟩
  intro a d m t r h
  obtain ⟨h10, name, hs, hr⟩ := parse_some_cases a d m t r h
  subst hr
  exact ⟨rfl, le_max_left _ _, max_le (by norm_num) (min_le_left _ _)⟩

/-- C9: decoding depends only on bytes 0, 1, 2, 3, 4, 8 and 9 of the payload:
two payloads of length at least 10 that agree at those indices decode, for
the same address, medium and tank type, to the same result; re-decoding the
identical byte sequence is the reflexive instance.  The timestamp is outside
the embedding (it is wall-clock time taken at assembly). -/
theorem parse_depends_only_on_used_bytes (a : String) (m : MediumType) (t : String)
    (d1 d2 : List ℕ) (hl1 : 10 ≤ d1.length) (hl2 : 10 ≤ d2.length)
    (e0 : d1.getD 0 0 = d2.getD 0 0) (e1 : d1.getD 1 0 = d2.getD 1 0)
    (e2 : d1.getD 2 0 = d2.getD 2 0) (e3 : d1.getD 3 0 = d2.getD 3 0)
    (e4 : d1.getD 4 0 = d2.getD 4 0) (e8 : d1.getD 8 0 = d2.getD 8 0)
    (e9 : d1.getD 9 0 = d2.getD 9 0) :
    parse_mopeka_data a d1 m t = parse_mopeka_data a d2 m t := by
  cases hs : SYNC_BYTE_TO_MODEL (d1.getD 0 0) with
  | none =>
    have hs2 : SYNC_BYTE_TO_MODEL (d2.getD 0 0) = none := by rw [← e0]; exact hs
    rw [(parse_none_iff a d1 m t).mpr (Or.inr hs),
      (parse_none_iff a d2 m t).mpr (Or.inr hs2)]
  | some name =>
    have hs2 : SYNC_BYTE_TO_MODEL (d2.getD 0 0) = some name := by rw [← e0]; exact hs
    rw [parse_eq_some_of a d1 m t name hl1 hs,
      parse_eq_some_of a d2 m t name hl2 hs2]
    unfold decodedReading
    rw [e0, e1, e2, e3, e4, e8, e9]

/-- Witness for C9: two payloads differing only at bytes 5, 6 and 7 decode
identically. -/
theorem parse_depends_only_on_used_bytes_witness :
    parse_mopeka_data "aa:bb" [4, 100, 66, 16, 64, 0, 0, 0, 5, 6]
        MediumType.propane "20lb_v" =
      parse_mopeka_data "aa:bb" [4, 100, 66, 16, 64, 9, 8, 7, 5, 6]
        MediumType.propane "20lb_v" :=
  parse_depends_only_on_used_bytes "aa:bb" MediumType.propane "20lb_v"
    [4, 100, 66, 16, 64, 0, 0, 0, 5, 6] [4, 100, 66, 16, 64, 9, 8, 7, 5, 6]
    (by decide) (by decide) rfl rfl rfl rfl rfl rfl rfl

/-- C10: for every medium type and every temp_raw in [0, 127] the
compensation factor is strictly positive, so on distances within the 14-bit
range the compensated distance is nonnegative and the negative-product edge
case of the truncation never occurs. -/
theorem compensation_factor_positive (m : MediumType) (temp : ℤ)
    (ht0 : 0 ≤ temp) (ht : temp ≤ 127) :
    0 < compensation_factor m temp ∧
      ∀ dist : ℤ, 0 ≤ dist → dist ≤ 16383 →
        0 ≤ apply_temperature_compensation dist temp m := by
  have hx0 : (0 : ℚ) ≤ (temp : ℚ) := by exact_mod_cast ht0
  have hx1 : (temp : ℚ) ≤ 127 := by exact_mod_cast ht
  have hpos : 0 < compensation_factor m temp := by
    unfold compensation_factor COMPENSATION_COEFFICIENTS
    cases m <;> dsimp only <;>
      nlinarith [mul_nonneg hx0 (by linarith : (0 : ℚ) ≤ 127 - (temp : ℚ)),
        mul_nonneg hx0 hx0]
  refine ⟨hpos, fun dist hd0 _hd1 => ?_⟩
  have hq : 0 ≤ (dist : ℚ) * compensation_factor m temp :=
    mul_nonneg (by exact_mod_cast hd0) hpos.le
  exact pyInt_nonneg _ hq

/-- Witness for C10 at medium propane and temp_raw 20. -/
theorem compensation_factor_positive_witness :
    0 < compensation_factor MediumType.propane 20 ∧
      0 ≤ apply_temperature_compensation 1000 20 MediumType.propane :=
  ⟨(compensation_factor_positive MediumType.propane 20 (by norm_num) (by norm_num)).1,
    (compensation_factor_positive MediumType.propane 20 (by norm_num) (by norm_num)).2
      1000 (by norm_num) (by norm_num)⟩

lemma clamp_mem (x : ℝ) : 0 ≤ max 0 (min 100 x) ∧ max 0 (min 100 x) ≤ 100 := by
  constructor
  · have h : (0 : ℝ) ≤ 0 := by norm_num
    exact h.trans (le_max_left _ _)
  · apply max_le
    · norm_num
    · exact (min_le_left _ _).trans (by norm_num)

set_option maxHeartbeats 1000000 in
lemma vert_bounds (f r L : ℝ) :
    0 ≤ _calculate_vertical f r L ∧ _calculate_vertical f r L ≤ 100 := by
  simp only [_calculate_vertical]
  split_ifs
  · exact ⟨by norm_num, by norm_num⟩
  · exact ⟨by norm_num, by norm_num⟩
  · exact clamp_mem _
  · exact ⟨by norm_num, by norm_num⟩
  · exact clamp_mem _
  · exact ⟨by norm_num, by norm_num⟩
  · exact clamp_mem _
  · exact ⟨by norm_num, by norm_num⟩

set_option maxHeartbeats 1000000 in
lemma horiz_bounds (f r L : ℝ) :
    0 ≤ _calculate_horizontal f r L ∧ _calculate_horizontal f r L ≤ 100 := by
  simp only [_calculate_horizontal]
  split_ifs
  · exact ⟨by norm_num, by norm_num⟩
  · exact ⟨by norm_num, by norm_num⟩
  · exact clamp_mem _

lemma calc_bounds (t : String) (x : ℝ) :
    0 ≤ calculate_tank_percentage t x ∧ calculate_tank_percentage t x ≤ 100 := by
  simp only [calculate_tank_percentage]
  split_ifs
  · exact ⟨by norm_num, by norm_num⟩
  · cases ho : (specOf t).orientation <;> simp only [ho]
    · exact vert_bounds _ _ _
    · exact horiz_bounds _ _ _

lemma specOf_dims (t : String) :
    0 < (specOf t).radius_mm ∧ 0 < (specOf t).side_length_mm ∧
      (specOf t).wall_thickness_mm = 3.175 := by
  unfold specOf TANK_SPECS
  split_ifs <;>
    simp only [Option.getD_some, TankSpec.radius_mm, TankSpec.internal_diameter_mm,
      TankSpec.side_length_mm] <;>
    norm_num

lemma vert_checked_eq (d r L : ℝ) (hr : 0 < r) (hL : 0 ≤ L) :
    _calculate_vertical_checked d r L = some (_calculate_vertical d r L) := by
  have hπ := Real.pi_pos
  have hc : ¬ (3 * (r / 2) * (r / 2) = 0) := by positivity
  have hmax : 0 < 2 * ((2 / 3) * Real.pi * r * r * (r / 2)) + L * Real.pi * r * r := by
    have h1 : 0 < Real.pi * r * r * r := by positivity
    have h2 : 0 ≤ L * (Real.pi * r * r) := by positivity
    nlinarith
  simp only [_calculate_vertical_checked, _calculate_vertical]
  split_ifs with h1 h2 h3 h4 h5 h6 h7 h8 h9 <;>
    first
      | rfl
      | exact absurd ‹3 * (r / 2) * (r / 2) = 0› hc
      | exact absurd ‹2 * (2 / 3 * Real.pi * r * r * (r / 2)) + L * Real.pi * r * r = 0›
          (by exact fun h => absurd h (ne_of_gt (by nlinarith)))

lemma horiz_checked_eq (d r L : ℝ) (hr : 0 < r) (hL : 0 ≤ L) :
    _calculate_horizontal_checked d r L = some (_calculate_horizontal d r L) := by
  have hπ := Real.pi_pos
  have hfactor : (0 : ℝ) < Real.pi * r * r := by positivity
  have hmaxh : (0 : ℝ) < 4 / 3 * Real.pi * r * r * r + L * Real.pi * r * r := by
    nlinarith [mul_pos hfactor hr, mul_nonneg hL hfactor.le]
  simp only [_calculate_horizontal_checked, _calculate_horizontal]
  split_ifs with h1 h2 h3 h4 h5
  · rfl
  · rfl
  · exact absurd h3 (ne_of_gt hr)
  · exfalso
    push_neg at h1 h2
    rcases h4 with h4 | h4
    · have hge : (-1 : ℝ) ≤ (r - d) / r := by
        rw [le_div_iff₀ hr]
        linarith
      linarith
    · have hle : (r - d) / r ≤ 1 := by
        rw [div_le_one hr]
        linarith
      linarith
  · exact absurd h5 (ne_of_gt hmaxh)
  · rfl

lemma calc_checked_eq (t : String) (x : ℝ) :
    calculate_tank_percentage_checked t x = some (calculate_tank_percentage t x) := by
  obtain ⟨hr, hL, _⟩ := specOf_dims t
  have hrR : (0 : ℝ) < ((specOf t).radius_mm : ℝ) := by exact_mod_cast hr
  have hLR : (0 : ℝ) ≤ ((specOf t).side_length_mm : ℝ) := by
    have : (0 : ℝ) < ((specOf t).side_length_mm : ℝ) := by exact_mod_cast hL
    linarith
  simp only [calculate_tank_percentage_checked, calculate_tank_percentage]
  split_ifs
  · rfl
  · cases ho : (specOf t).orientation <;> simp only [ho]
    · exact vert_checked_eq _ _ _ hrR hLR
    · exact horiz_checked_eq _ _ _ hrR hLR

/-- C2: decoding yields no reading exactly when the payload is shorter than
10 bytes or its first byte is outside the recognized sync-byte set, and for
every tank type and depth the tank-geometry stage (the only stage containing
a division or a transcendental-function domain, hence the only candidate for
an arithmetic exception) completes without raising: its exception-explicit
model agrees with the total function on all inputs, because every spec the
lookup can return has positive radius and side length.  All remaining parser
steps are integer and rational operations and guarded indexing, total by
construction. -/
theorem parse_none_characterization :
    (∀ (a : String) (d : List ℕ) (m : MediumType) (t : String),
      parse_mopeka_data a d m t = none ↔
        d.length < 10 ∨
          d.getD 0 0 ∉ ([0x03, 0x04, 0x05, 0x08, 0x09, 0x0A, 0x0B, 0x0C] : List ℕ)) ∧
    (∀ (t : String) (x : ℝ),
      calculate_tank_percentage_checked t x = some (calculate_tank_percentage t x)) :=
  ⟨fun a d m t => (parse_none_iff a d m t).trans
      (or_congr_right (sync_none_iff (d.getD 0 0))),
    calc_checked_eq⟩

/-- C8 evidence: at a zero-radius spec the geometry helpers hit an unguarded
division by zero (0/0 in the source raises ZeroDivisionError), modelled
by the exception-explicit variants returning none at fill_depth 0, radius 0,
side_length 100. -/
theorem zero_radius_geometry_raises :
    _calculate_horizontal_checked 0 0 100 = none ∧
      _calculate_vertical_checked 0 0 100 = none := by
  constructor
  · simp only [_calculate_horizontal_checked]
    norm_num
  · simp only [_calculate_vertical_checked]
    norm_num

/-- C3: the tank percentage always lies in [0, 100]; it is 0 whenever the
fill depth (measured depth minus wall thickness) is negative, and 100
whenever the fill depth exceeds the tank height (vertical) or twice the
radius (horizontal); consequently the tank_level_percent of every produced
reading lies in [0, 100]. -/
theorem tank_percentage_bounds :
    (∀ (t : String) (x : ℝ),
      0 ≤ calculate_tank_percentage t x ∧ calculate_tank_percentage t x ≤ 100) ∧
    (∀ (t : String) (x : ℝ), x - ((specOf t).wall_thickness_mm : ℝ) < 0 →
      calculate_tank_percentage t x = 0) ∧
    (∀ (t : String) (x : ℝ), (specOf t).orientation = TankOrientation.vertical →
      ((specOf t).side_length_mm : ℝ) + ((specOf t).radius_mm : ℝ) / 2 <
        x - ((specOf t).wall_thickness_mm : ℝ) →
      calculate_tank_percentage t x = 100) ∧
    (∀ (t : String) (x : ℝ), (specOf t).orientation = TankOrientation.horizontal →
      2 * ((specOf t).radius_mm : ℝ) < x - ((specOf t).wall_thickness_mm : ℝ) →
      calculate_tank_percentage t x = 100) ∧
    (∀ (a : String) (d : List ℕ) (m : MediumType) (t : String) (r : MopekaSensorData),
      parse_mopeka_data a d m t = some r →
      0 ≤ r.tank_level_percent ∧ r.tank_level_percent ≤ 100) := by
  have hposdims : ∀ t : String, (0 : ℝ) < ((specOf t).radius_mm : ℝ) ∧
      (0 : ℝ) < ((specOf t).side_length_mm : ℝ) := by
    intro t
    obtain ⟨h1, h2, _⟩ := specOf_dims t
    exact ⟨by exact_mod_cast h1, by exact_mod_cast h2⟩
  refine ⟨fun t x => calc_bounds t x, ?_, ?_, ?_, ?_⟩
  · intro t x hneg
    simp only [calculate_tank_percentage]
    rw [if_pos hneg]
  · intro t x ho hgt
    obtain ⟨hr, hL⟩ := hposdims t
    simp only [calculate_tank_percentage]
    rw [if_neg (by linarith), ho]
    simp only [_calculate_vertical]
    rw [if_pos (by exact hgt)]
  · intro t x ho hgt
    obtain ⟨hr, hL⟩ := hposdims t
    simp only [calculate_tank_percentage]
    rw [if_neg (by linarith), ho]
    simp only [_calculate_horizontal]
    rw [if_pos (by exact hgt)]
  · intro a d m t r h
    obtain ⟨h10, name, hs, hr⟩ := parse_some_cases a d m t r h
    subst hr
    exact calc_bounds t _

lemma vert_g_mono (r : ℝ) (hr : 0 < r) {x y : ℝ} (hx : 0 ≤ x) (hxy : x ≤ y)
    (hy : y ≤ r / 2) :
    Real.pi * r * r * ((2 / 3 * (r / 2)) - r / 2 + x +
        (r / 2 - x) ^ 3 / (3 * (r / 2) * (r / 2))) ≤
      Real.pi * r * r * ((2 / 3 * (r / 2)) - r / 2 + y +
        (r / 2 - y) ^ 3 / (3 * (r / 2) * (r / 2))) := by
  have hπrr : (0 : ℝ) ≤ Real.pi * r * r := by positivity
  apply mul_le_mul_of_nonneg_left _ hπrr
  have hc : (0 : ℝ) < r / 2 := by linarith
  have hcc : (0 : ℝ) < 3 * (r / 2) * (r / 2) := by positivity
  rw [← sub_nonneg]
  have hid : ((2 / 3 * (r / 2)) - r / 2 + y + (r / 2 - y) ^ 3 / (3 * (r / 2) * (r / 2))) -
      ((2 / 3 * (r / 2)) - r / 2 + x + (r / 2 - x) ^ 3 / (3 * (r / 2) * (r / 2))) =
      ((y - x) * ((3 * (r / 2) * (r / 2)) -
        ((r / 2 - x) ^ 2 + (r / 2 - x) * (r / 2 - y) + (r / 2 - y) ^ 2))) /
        (3 * (r / 2) * (r / 2)) := by
    field_simp
    ring
  rw [hid]
  apply div_nonneg _ hcc.le
  apply mul_nonneg (by linarith)
  have hu0 : (0 : ℝ) ≤ r / 2 - y := by linarith
  have hv0 : (0 : ℝ) ≤ r / 2 - x := by linarith
  have huc : r / 2 - x ≤ r / 2 := by linarith
  have hvc : r / 2 - y ≤ r / 2 := by linarith
  nlinarith [mul_le_mul huc huc hv0 hc.le, mul_le_mul hvc hvc hu0 hc.le,
    mul_le_mul huc hvc hu0 hc.le]

lemma vert_g_zero (r : ℝ) (hr : 0 < r) :
    Real.pi * r * r * ((2 / 3 * (r / 2)) - r / 2 + 0 +
      (r / 2 - 0) ^ 3 / (3 * (r / 2) * (r / 2))) = 0 := by
  have hc : (r : ℝ) / 2 ≠ 0 := by positivity
  field_simp
  ring

lemma vert_g_top (r : ℝ) (hr : 0 < r) :
    Real.pi * r * r * ((2 / 3 * (r / 2)) - r / 2 + r / 2 +
        (r / 2 - r / 2) ^ 3 / (3 * (r / 2) * (r / 2))) =
      (2 / 3) * Real.pi * r * r * (r / 2) := by
  rw [sub_self]
  have hc : (3 : ℝ) * (r / 2) * (r / 2) ≠ 0 := by positivity
  field_simp
  ring

lemma vertFill_nonneg (r d : ℝ) (hr : 0 < r) (hd : 0 ≤ d) : 0 ≤ vertFillVolume r d := by
  unfold vertFillVolume
  split_ifs with h
  · have h0 := vert_g_zero r hr
    have := vert_g_mono r hr (le_refl 0) hd h
    linarith
  · push_neg at h
    have hπrr : (0 : ℝ) ≤ Real.pi * r * r := by positivity
    have h1 : (0 : ℝ) ≤ (d - r / 2) * (Real.pi * r * r) :=
      mul_nonneg (by linarith) hπrr
    nlinarith [mul_pos (mul_pos Real.pi_pos hr) hr]

lemma vertFill_mono (r : ℝ) (hr : 0 < r) {x y : ℝ} (hx : 0 ≤ x) (hxy : x ≤ y) :
    vertFillVolume r x ≤ vertFillVolume r y := by
  have hπrr : (0 : ℝ) ≤ Real.pi * r * r := by positivity
  unfold vertFillVolume
  split_ifs with h1 h2 h2
  · exact vert_g_mono r hr hx hxy h2
  · push_neg at h2
    have hA := vert_g_mono r hr hx h1 (le_refl (r / 2))
    have hAc := vert_g_top r hr
    have hB : (0 : ℝ) ≤ (y - r / 2) * (Real.pi * r * r) :=
      mul_nonneg (by linarith) hπrr
    linarith
  · push_neg at h1
    linarith
  · have : (x - r / 2) * (Real.pi * r * r) ≤ (y - r / 2) * (Real.pi * r * r) :=
      mul_le_mul_of_nonneg_right (by linarith) hπrr
    linarith

lemma vertMax_pos (r L : ℝ) (hr : 0 < r) (hL : 0 ≤ L) : 0 < vertMaxVolume r L := by
  unfold vertMaxVolume
  nlinarith [mul_pos (mul_pos (mul_pos Real.pi_pos hr) hr) hr,
    mul_nonneg hL (mul_pos (mul_pos Real.pi_pos hr) hr).le]

lemma vert_eq (d r L : ℝ) (hr : 0 < r) (hL : 0 ≤ L) :
    _calculate_vertical d r L =
      if d > L + r / 2 then 100
      else if d < 0 then 0
      else max 0 (min 100 (100 * vertFillVolume r d / vertMaxVolume r L)) := by
  have hc : (0 : ℝ) < r / 2 := by linarith
  have hth : (0 : ℝ) < L + r / 2 := by linarith
  by_cases hA : d > L + r / 2
  · simp only [_calculate_vertical]
    rw [if_pos hA, if_pos hA]
  · push_neg at hA
    by_cases hB : d < 0
    · simp only [_calculate_vertical]
      rw [if_neg (not_lt.mpr hA)]
      rw [if_neg (by rintro ⟨h1, -⟩; linarith)]
      rw [if_neg (by rintro ⟨h1, -⟩; linarith)]
      rw [if_neg (by rintro ⟨h1, -⟩; linarith)]
      rw [if_neg (not_lt.mpr hA), if_pos hB]
    · push_neg at hB
      have hrhs : (if d > L + r / 2 then (100 : ℝ)
          else if d < 0 then 0
          else max 0 (min 100 (100 * vertFillVolume r d / vertMaxVolume r L))) =
          max 0 (min 100 (100 * vertFillVolume r d / vertMaxVolume r L)) := by
        rw [if_neg (not_lt.mpr hA), if_neg (not_lt.mpr hB)]
      rw [hrhs]
      by_cases hreg : d ≤ r / 2
      · have hv : vertFillVolume r d =
            Real.pi * r * r * ((2 / 3 * (r / 2)) - r / 2 + d +
              (r / 2 - d) ^ 3 / (3 * (r / 2) * (r / 2))) := by
          unfold vertFillVolume
          rw [if_pos hreg]
        simp only [_calculate_vertical]
        rw [if_neg (not_lt.mpr hA), if_pos ⟨hB, hreg⟩]
        rw [if_neg (not_lt.mpr (hv ▸ vertFill_nonneg r d hr hB))]
        rw [← hv]
        unfold vertMaxVolume
        rfl
      · push_neg at hreg
        have hv : vertFillVolume r d =
            (2 / 3) * Real.pi * r * r * (r / 2) + (d - r / 2) * Real.pi * r * r := by
          unfold vertFillVolume
          rw [if_neg (not_le.mpr hreg)]
        simp only [_calculate_vertical]
        rw [if_neg (not_lt.mpr hA)]
        rw [if_neg (by rintro ⟨-, h2⟩; linarith)]
        rw [if_pos ⟨hreg.le, by linarith⟩]
        rw [if_neg (not_lt.mpr (hv ▸ vertFill_nonneg r d hr hB))]
        rw [← hv]
        unfold vertMaxVolume
        rfl

lemma vert_mono (r L : ℝ) (hr : 0 < r) (hL : 0 ≤ L) {x y : ℝ} (hxy : x ≤ y) :
    _calculate_vertical x r L ≤ _calculate_vertical y r L := by
  have hmax := vertMax_pos r L hr hL
  rw [vert_eq x r L hr hL, vert_eq y r L hr hL]
  by_cases hAy : y > L + r / 2
  · rw [if_pos hAy]
    split_ifs with h1 h2
    · exact le_refl _
    · norm_num
    · exact (clamp_mem _).2
  · rw [if_neg hAy]
    have hAx : ¬ x > L + r / 2 := by push_neg at hAy ⊢; linarith
    rw [if_neg hAx]
    by_cases hBx : x < 0
    · rw [if_pos hBx]
      split_ifs with h2
      · exact le_refl _
      · exact (clamp_mem _).1
    · have hBy : ¬ y < 0 := by push_neg at hBx ⊢; linarith
      rw [if_neg hBx, if_neg hBy]
      have hV := vertFill_mono r hr (not_lt.mp hBx) hxy
      have hdiv : 100 * vertFillVolume r x / vertMaxVolume r L ≤
          100 * vertFillVolume r y / vertMaxVolume r L := by
        apply div_le_div_of_nonneg_right ?_ hmax.le
        linarith
      exact max_le_max le_rfl (min_le_min le_rfl hdiv)

lemma segFun_hasDeriv (x : ℝ) (hx : x ∈ Set.Ioo (-1 : ℝ) 1) :
    HasDerivAt segFun (-(1 / Real.sqrt (1 - x ^ 2)) -
      (Real.sqrt (1 - x ^ 2) + x * (-(2 * x) / (2 * Real.sqrt (1 - x ^ 2))))) x := by
  obtain ⟨hx1, hx2⟩ := hx
  have hpos : 0 < 1 - x ^ 2 := by nlinarith
  have harc : HasDerivAt Real.arccos (-(1 / Real.sqrt (1 - x ^ 2))) x :=
    Real.hasDerivAt_arccos (by linarith) (by linarith)
  have hinner : HasDerivAt (fun s : ℝ => 1 - s ^ 2) (-(2 * x)) x := by
    have h1 : HasDerivAt (fun s : ℝ => s ^ 2) (2 * x) x := by
      have := hasDerivAt_pow 2 x
      simpa using this
    have h2 := (hasDerivAt_const x (1 : ℝ)).sub h1
    simpa using h2
  have hsqrt : HasDerivAt (fun s : ℝ => Real.sqrt (1 - s ^ 2))
      (-(2 * x) / (2 * Real.sqrt (1 - x ^ 2))) x := by
    have := (Real.hasDerivAt_sqrt (ne_of_gt hpos)).comp x hinner
    convert this using 1
    ring
  have hprod : HasDerivAt (fun s : ℝ => s * Real.sqrt (1 - s ^ 2))
      (1 * Real.sqrt (1 - x ^ 2) + x * (-(2 * x) / (2 * Real.sqrt (1 - x ^ 2)))) x :=
    (hasDerivAt_id x).mul hsqrt
  have hsub := harc.sub hprod
  convert hsub using 1
  ring

lemma segFun_antitoneOn : AntitoneOn segFun (Set.Icc (-1 : ℝ) 1) := by
  have hcont : ContinuousOn segFun (Set.Icc (-1 : ℝ) 1) := by
    apply ContinuousOn.sub
    · exact Real.continuous_arccos.continuousOn
    · apply ContinuousOn.mul continuousOn_id
      apply Continuous.continuousOn
      exact Real.continuous_sqrt.comp (by continuity)
  apply antitoneOn_of_deriv_nonpos (convex_Icc _ _) hcont
  · rw [interior_Icc]
    intro x hx
    exact (segFun_hasDeriv x hx).differentiableAt.differentiableWithinAt
  · rw [interior_Icc]
    intro x hx
    rw [(segFun_hasDeriv x hx).deriv]
    obtain ⟨hx1, hx2⟩ := hx
    have hpos : 0 < 1 - x ^ 2 := by nlinarith
    have hs : 0 < Real.sqrt (1 - x ^ 2) := Real.sqrt_pos.mpr hpos
    have hs2 : Real.sqrt (1 - x ^ 2) ^ 2 = 1 - x ^ 2 := Real.sq_sqrt hpos.le
    have key : -(1 / Real.sqrt (1 - x ^ 2)) - (Real.sqrt (1 - x ^ 2) +
        x * (-(2 * x) / (2 * Real.sqrt (1 - x ^ 2)))) =
        (x ^ 2 - 1) / Real.sqrt (1 - x ^ 2) - Real.sqrt (1 - x ^ 2) := by
      field_simp
      linear_combination (-2 * Real.sqrt (1 - x ^ 2) ^ 2) * hs2
    rw [key]
    have h1 : (x ^ 2 - 1) / Real.sqrt (1 - x ^ 2) ≤ 0 :=
      div_nonpos_of_nonpos_of_nonneg (by nlinarith) hs.le
    linarith

lemma seg_scale (r d : ℝ) (hr : 0 < r) (hd0 : 0 ≤ d) (hd2 : d ≤ 2 * r) :
    r * r * Real.arccos ((r - d) / r) -
        (r - d) * Real.sqrt (max 0 (2 * r * d - d * d)) =
      r ^ 2 * segFun ((r - d) / r) := by
  unfold segFun
  have hmax : max 0 (2 * r * d - d * d) = 2 * r * d - d * d :=
    max_eq_right (by nlinarith)
  have hsq : 1 - ((r - d) / r) ^ 2 = (2 * r * d - d * d) / r ^ 2 := by
    field_simp
    ring
  have hsqrt : Real.sqrt (1 - ((r - d) / r) ^ 2) =
      Real.sqrt (2 * r * d - d * d) / r := by
    rw [hsq, Real.sqrt_div (by nlinarith) (r ^ 2), Real.sqrt_sq hr.le]
  rw [hmax, hsqrt]
  field_simp
  ring

lemma horizFill_mono (r L : ℝ) (hr : 0 < r) (hL : 0 ≤ L) {x y : ℝ}
    (hx : 0 ≤ x) (hxy : x ≤ y) (hy : y ≤ 2 * r) :
    horizFillVolume r L x ≤ horizFillVolume r L y := by
  unfold horizFillVolume
  rw [seg_scale r x hr hx (by linarith), seg_scale r y hr (by linarith) hy]
  have hsph : Real.pi / 3 * x * x * (3 * r - x) ≤ Real.pi / 3 * y * y * (3 * r - y) := by
    have e1 : x * x ≤ 2 * r * x := by nlinarith
    have e2 : y * y ≤ 2 * r * y := by nlinarith
    have e3 : x * y ≤ 2 * r * x := by nlinarith
    have e4 : r * x ≤ r * y := by nlinarith
    have hkey : y * y * (3 * r - y) - x * x * (3 * r - x) =
        (y - x) * (3 * r * (x + y) - (x * x + x * y + y * y)) := by ring
    have hfac : 0 ≤ (y - x) * (3 * r * (x + y) - (x * x + x * y + y * y)) :=
      mul_nonneg (by linarith) (by nlinarith)
    nlinarith [Real.pi_pos]
  have hmemx : (r - x) / r ∈ Set.Icc (-1 : ℝ) 1 := by
    constructor
    · rw [le_div_iff₀ hr]
      linarith
    · rw [div_le_one hr]
      linarith
  have hmemy : (r - y) / r ∈ Set.Icc (-1 : ℝ) 1 := by
    constructor
    · rw [le_div_iff₀ hr]
      linarith
    · rw [div_le_one hr]
      linarith
  have hts : (r - y) / r ≤ (r - x) / r := by
    apply div_le_div_of_nonneg_right ?_ hr.le
    linarith
  have hseg : segFun ((r - x) / r) ≤ segFun ((r - y) / r) :=
    segFun_antitoneOn hmemy hmemx hts
  have hcyl : L * (r ^ 2 * segFun ((r - x) / r)) ≤ L * (r ^ 2 * segFun ((r - y) / r)) := by
    apply mul_le_mul_of_nonneg_left _ hL
    apply mul_le_mul_of_nonneg_left hseg (by positivity)
  linarith

lemma horizFill_zero (r L : ℝ) (hr : 0 < r) : horizFillVolume r L 0 = 0 := by
  unfold horizFillVolume
  have h1 : (r - 0) / r = 1 := by
    rw [sub_zero, div_self (ne_of_gt hr)]
  rw [h1, Real.arccos_one]
  norm_num

lemma horizFill_nonneg (r L : ℝ) (hr : 0 < r) (hL : 0 ≤ L) {d : ℝ}
    (hd0 : 0 ≤ d) (hd2 : d ≤ 2 * r) : 0 ≤ horizFillVolume r L d := by
  have := horizFill_mono r L hr hL (le_refl 0) hd0 hd2
  rw [horizFill_zero r L hr] at this
  exact this

lemma horizMax_pos (r L : ℝ) (hr : 0 < r) (hL : 0 ≤ L) : 0 < horizMaxVolume r L := by
  unfold horizMaxVolume
  nlinarith [mul_pos (mul_pos (mul_pos Real.pi_pos hr) hr) hr,
    mul_nonneg hL (mul_pos (mul_pos Real.pi_pos hr) hr).le]

lemma horiz_eq (d r L : ℝ) :
    _calculate_horizontal d r L =
      if d > 2 * r then 100
      else if d < 0 then 0
      else max 0 (min 100 (100 * horizFillVolume r L d / horizMaxVolume r L)) := by
  simp only [_calculate_horizontal, horizFillVolume, horizMaxVolume]

lemma horiz_mono (r L : ℝ) (hr : 0 < r) (hL : 0 ≤ L) {x y : ℝ} (hxy : x ≤ y) :
    _calculate_horizontal x r L ≤ _calculate_horizontal y r L := by
  have hmax := horizMax_pos r L hr hL
  rw [horiz_eq x r L, horiz_eq y r L]
  by_cases hAy : y > 2 * r
  · rw [if_pos hAy]
    split_ifs with h1 h2
    · exact le_refl _
    · norm_num
    · exact (clamp_mem _).2
  · rw [if_neg hAy]
    have hAx : ¬ x > 2 * r := by push_neg at hAy ⊢; linarith
    rw [if_neg hAx]
    by_cases hBx : x < 0
    · rw [if_pos hBx]
      split_ifs with h2
      · exact le_refl _
      · exact (clamp_mem _).1
    · have hBy : ¬ y < 0 := by push_neg at hBx ⊢; linarith
      rw [if_neg hBx, if_neg hBy]
      have hV := horizFill_mono r L hr hL (not_lt.mp hBx) hxy (not_lt.mp hAy)
      have hdiv : 100 * horizFillVolume r L x / horizMaxVolume r L ≤
          100 * horizFillVolume r L y / horizMaxVolume r L := by
        apply div_le_div_of_nonneg_right ?_ hmax.le
        linarith
      exact max_le_max le_rfl (min_le_min le_rfl hdiv)

/-- C6: for every positive-dimension tank geometry, in either orientation,
the computed percentage is monotonically non-decreasing in the fill depth
(globally, hence in particular between 0 and the maximum depth), and the
percentage computed through the spec lookup is monotone in the measured
depth for every tank type string. -/
theorem tank_percentage_monotone :
    (∀ r L : ℝ, 0 < r → 0 ≤ L → ∀ x y : ℝ, x ≤ y →
      _calculate_vertical x r L ≤ _calculate_vertical y r L) ∧
    (∀ r L : ℝ, 0 < r → 0 ≤ L → ∀ x y : ℝ, x ≤ y →
      _calculate_horizontal x r L ≤ _calculate_horizontal y r L) ∧
    (∀ (t : String) (x y : ℝ), x ≤ y →
      calculate_tank_percentage t x ≤ calculate_tank_percentage t y) := by
  refine ⟨fun r L hr hL x y hxy => vert_mono r L hr hL hxy,
    fun r L hr hL x y hxy => horiz_mono r L hr hL hxy, ?_⟩
  intro t x y hxy
  obtain ⟨hrq, hLq, _⟩ := specOf_dims t
  have hr : (0 : ℝ) < ((specOf t).radius_mm : ℝ) := by exact_mod_cast hrq
  have hL : (0 : ℝ) ≤ ((specOf t).side_length_mm : ℝ) := by
    have h : (0 : ℝ) < ((specOf t).side_length_mm : ℝ) := by exact_mod_cast hLq
    linarith
  simp only [calculate_tank_percentage]
  by_cases h1 : x - ((specOf t).wall_thickness_mm : ℝ) < 0
  · rw [if_pos h1]
    by_cases h2 : y - ((specOf t).wall_thickness_mm : ℝ) < 0
    · rw [if_pos h2]
    · rw [if_neg h2]
      cases ho : (specOf t).orientation <;> simp only [ho]
      · exact (vert_bounds _ _ _).1
      · exact (horiz_bounds _ _ _).1
  · have h2 : ¬ y - ((specOf t).wall_thickness_mm : ℝ) < 0 := by
      push_neg at h1 ⊢
      linarith
    rw [if_neg h1, if_neg h2]
    cases ho : (specOf t).orientation <;> simp only [ho]
    · exact vert_mono _ _ hr hL (by linarith)
    · exact horiz_mono _ _ hr hL (by linarith)

lemma calc_20lb_eq (x : ℝ) :
    calculate_tank_percentage "20lb_v" x =
      if x - 3.175 < 0 then 0
      else _calculate_vertical (x - 3.175) 149.225 166.775 := by
  have hs : specOf "20lb_v" =
      ⟨"20lb_v", "20lb Vertical", .vertical, 316.0, 304.8, 3.175⟩ := by rfl
  simp only [calculate_tank_percentage, hs]
  norm_num [TankSpec.radius_mm, TankSpec.internal_diameter_mm, TankSpec.side_length_mm]

lemma calc_250_eq (x : ℝ) :
    calculate_tank_percentage "250gal_h" x =
      if x - 3.175 < 0 then 0
      else _calculate_horizontal (x - 3.175) 377.825 1625.6 := by
  have hs : specOf "250gal_h" =
      ⟨"250gal_h", "250 Gallon Horizontal", .horizontal, 2387.6, 762.0, 3.175⟩ := by rfl
  simp only [calculate_tank_percentage, hs]
  norm_num [TankSpec.radius_mm, TankSpec.internal_diameter_mm, TankSpec.side_length_mm]

lemma calc_500_eq (x : ℝ) :
    calculate_tank_percentage "500gal_h" x =
      if x - 3.175 < 0 then 0
      else _calculate_horizontal (x - 3.175) 473.075 2070.1 := by
  have hs : specOf "500gal_h" =
      ⟨"500gal_h", "500 Gallon Horizontal", .horizontal, 3022.6, 952.5, 3.175⟩ := by rfl
  simp only [calculate_tank_percentage, hs]
  norm_num [TankSpec.radius_mm, TankSpec.internal_diameter_mm, TankSpec.side_length_mm]

lemma calc_1000_eq (x : ℝ) :
    calculate_tank_percentage "1000gal_h" x =
      if x - 3.175 < 0 then 0
      else _calculate_horizontal (x - 3.175) 517.525 3836.1 := by
  have hs : specOf "1000gal_h" =
      ⟨"1000gal_h", "1000 Gallon Horizontal", .horizontal, 4877.5, 1041.4, 3.175⟩ := by rfl
  simp only [calculate_tank_percentage, hs]
  norm_num [TankSpec.radius_mm, TankSpec.internal_diameter_mm, TankSpec.side_length_mm]

lemma horiz_at_radius (r L : ℝ) (hr : 0 < r) (hL : 0 ≤ L) :
    _calculate_horizontal r r L = 50 := by
  rw [horiz_eq]
  rw [if_neg (not_lt.mpr (by linarith)), if_neg (not_lt.mpr hr.le)]
  have hfill : horizFillVolume r L r = horizMaxVolume r L / 2 := by
    unfold horizFillVolume horizMaxVolume
    have h1 : (r - r) / r = 0 := by rw [sub_self, zero_div]
    rw [h1, Real.arccos_zero]
    have h2 : max (0 : ℝ) (2 * r * r - r * r) = r * r := by
      rw [show 2 * r * r - r * r = r * r by ring]
      exact max_eq_right (by positivity)
    rw [h2, Real.sqrt_mul_self hr.le]
    ring
  rw [hfill]
  have hmax := horizMax_pos r L hr hL
  have hv : 100 * (horizMaxVolume r L / 2) / horizMaxVolume r L = 50 := by
    field_simp
    ring
  rw [hv]
  rw [min_eq_right (by norm_num), max_eq_right (by norm_num)]

lemma horiz_at_diameter (r L : ℝ) (hr : 0 < r) (hL : 0 ≤ L) :
    _calculate_horizontal (2 * r) r L = 100 := by
  rw [horiz_eq]
  rw [if_neg (lt_irrefl _), if_neg (not_lt.mpr (by linarith))]
  have hfill : horizFillVolume r L (2 * r) = horizMaxVolume r L := by
    unfold horizFillVolume horizMaxVolume
    have h1 : (r - 2 * r) / r = -1 := by
      field_simp
      ring
    rw [h1, Real.arccos_neg_one]
    have h2 : max (0 : ℝ) (2 * r * (2 * r) - 2 * r * (2 * r)) = 0 := by
      rw [sub_self]
      exact max_self 0
    rw [h2, Real.sqrt_zero]
    ring
  rw [hfill]
  have hmax := horizMax_pos r L hr hL
  have hv : 100 * horizMaxVolume r L / horizMaxVolume r L = 100 := by
    field_simp
  rw [hv]
  rw [min_self, max_eq_right (by norm_num)]

lemma vert_20lb_zero : _calculate_vertical (3.175 - 3.175) 149.225 166.775 = 0 := by
  rw [show ((3.175 : ℝ) - 3.175) = 0 from by norm_num]
  rw [vert_eq _ _ _ (by norm_num) (by norm_num)]
  rw [if_neg (by norm_num), if_neg (by norm_num)]
  have hv : vertFillVolume 149.225 0 = 0 := by
    unfold vertFillVolume
    rw [if_pos (by norm_num)]
    exact vert_g_zero 149.225 (by norm_num)
  rw [hv]
  rw [mul_zero, zero_div]
  rw [min_eq_right (by norm_num), max_self]

lemma vert_20lb_boundary :
    _calculate_vertical (244.5625 - 3.175) 149.225 166.775 = 2598200 / 31951 := by
  rw [vert_eq _ _ _ (by norm_num) (by norm_num)]
  rw [if_neg (by norm_num), if_neg (by norm_num)]
  have hv : vertFillVolume 149.225 (244.5625 - 3.175) =
      (2 / 3) * Real.pi * 149.225 * 149.225 * (149.225 / 2) +
        ((244.5625 - 3.175) - 149.225 / 2) * Real.pi * 149.225 * 149.225 := by
    unfold vertFillVolume
    rw [if_neg (by norm_num)]
  rw [hv]
  unfold vertMaxVolume
  have hne : (2 * ((2 / 3) * Real.pi * 149.225 * 149.225 * (149.225 / 2)) +
      166.775 * Real.pi * 149.225 * 149.225) ≠ 0 := by positivity
  have hval : 100 * ((2 / 3) * Real.pi * 149.225 * 149.225 * (149.225 / 2) +
      ((244.5625 - 3.175) - 149.225 / 2) * Real.pi * 149.225 * 149.225) /
      (2 * ((2 / 3) * Real.pi * 149.225 * 149.225 * (149.225 / 2)) +
        166.775 * Real.pi * 149.225 * 149.225) = 2598200 / 31951 := by
    rw [div_eq_iff hne]
    ring
  rw [hval]
  rw [min_eq_right (by norm_num), max_eq_right (by norm_num)]

/-- C7 counterexample: at the exact vertical boundary fill_depth =
tank_height (measured depth 244.5625 mm for the 20lb vertical tank, whose
tank height is 241.3875 mm and wall 3.175 mm), the code takes the
cylindrical-region branch, whose inclusive upper bound coincides with
tank_height, and returns about 81.3 percent, not the 100 percent the claim
states. -/
theorem vertical_boundary_not_100 :
    calculate_tank_percentage "20lb_v" 244.5625 ≠ 100 := by
  rw [calc_20lb_eq, if_neg (by norm_num), vert_20lb_boundary]
  norm_num

/-- C7 amended: for the vertical tank 20lb_v, fill_depth = 0 gives 0 percent
and any fill_depth strictly above tank_height gives 100 percent, while at
exactly fill_depth = tank_height the cylindrical-region formula applies
(its inclusive bound covers the boundary, the top-cap branch being
unreachable) and yields 100*((2/3)c+L)/((4/3)c+L) = 2598200/31951, about
81.3 percent; for every horizontal tank of the table, fill_depth = radius
gives exactly 50 percent and fill_depth = 2*radius gives 100 percent. -/
theorem boundary_values_amended :
    calculate_tank_percentage "20lb_v" 3.175 = 0 ∧
    calculate_tank_percentage "20lb_v" 244.5625 = 2598200 / 31951 ∧
    (∀ x : ℝ, 244.5625 < x → calculate_tank_percentage "20lb_v" x = 100) ∧
    calculate_tank_percentage "250gal_h" 381 = 50 ∧
    calculate_tank_percentage "250gal_h" 758.825 = 100 ∧
    calculate_tank_percentage "500gal_h" 476.25 = 50 ∧
    calculate_tank_percentage "500gal_h" 949.325 = 100 ∧
    calculate_tank_percentage "1000gal_h" 520.7 = 50 ∧
    calculate_tank_percentage "1000gal_h" 1038.225 = 100 := by
  refine ⟨?_, ?_, ?_, ?_, ?_, ?_, ?_, ?_, ?_⟩
  · rw [calc_20lb_eq, if_neg (by norm_num)]
    exact vert_20lb_zero
  · rw [calc_20lb_eq, if_neg (by norm_num)]
    exact vert_20lb_boundary
  · intro x hx
    rw [calc_20lb_eq, if_neg (by push_neg; linarith)]
    rw [vert_eq _ _ _ (by norm_num) (by norm_num)]
    have hth : (166.775 : ℝ) + 149.225 / 2 = 241.3875 := by norm_num
    rw [if_pos (by rw [hth]; linarith)]
  · rw [calc_250_eq, if_neg (by norm_num),
      show ((381 : ℝ) - 3.175) = 377.825 from by norm_num]
    exact horiz_at_radius 377.825 1625.6 (by norm_num) (by norm_num)
  · rw [calc_250_eq, if_neg (by norm_num),
      show ((758.825 : ℝ) - 3.175) = 2 * 377.825 from by norm_num]
    exact horiz_at_diameter 377.825 1625.6 (by norm_num) (by norm_num)
  · rw [calc_500_eq, if_neg (by norm_num),
      show ((476.25 : ℝ) - 3.175) = 473.075 from by norm_num]
    exact horiz_at_radius 473.075 2070.1 (by norm_num) (by norm_num)
  · rw [calc_500_eq, if_neg (by norm_num),
      show ((949.325 : ℝ) - 3.175) = 2 * 473.075 from by norm_num]
    exact horiz_at_diameter 473.075 2070.1 (by norm_num) (by norm_num)
  · rw [calc_1000_eq, if_neg (by norm_num),
      show ((520.7 : ℝ) - 3.175) = 517.525 from by norm_num]
    exact horiz_at_radius 517.525 3836.1 (by norm_num) (by norm_num)
  · rw [calc_1000_eq, if_neg (by norm_num),
      show ((1038.225 : ℝ) - 3.175) = 2 * 517.525 from by norm_num]
    exact horiz_at_diameter 517.525 3836.1 (by norm_num) (by norm_num)

end Mopeka
